import Mathlib

/-!
Verification development for the `wire` package of the keep repository
(src/wire/protocol.go): a byte-exact JSON codec for the private
synchronization API of a note-taking service.

Shallow embedding conventions:
* Go byte slices holding ASCII wire tokens are embedded as Lean `String`.
* Go `MarshalJSON` methods returning `([]byte, error)` become
  `Except String String` when the error can be non-nil, and plain `String`
  when the source always returns a nil error.
* Go `UnmarshalJSON` methods on pointer receivers mutate the pointed-to
  value; they are embedded in state-passing style as
  `input -> old value -> (new value, Option error)`, so the error path and
  the final value of the target are both observable.
* Errors are the strings the Go code builds with fmt.Errorf; the verb %q
  is embedded by `goQuote` below (faithful on the printable ASCII data
  this codec handles).
-/

namespace Keep

/-- Embeds the Go fmt verb %q applied to an ASCII byte slice: wraps in
double quotes, escaping any double quote or backslash in the data. -/
def goEsc (c : Char) : String :=
  if c = '"' then "\\\"" else if c = '\\' then "\\\\" else String.singleton c

/-- See `goEsc`. -/
def goQuote (s : String) : String :=
  "\"" ++ String.join (s.data.map goEsc) ++ "\""

-- Wire constant byte slices from the var block of protocol.go.

/-- wire value for kind fields of nodes -/
def nodekind : String := "\"notes#node\""

/-- wire value for kind fields of timestamps -/
def tskind : String := "\"notes#timestamps\""

/-- wire value for the (static) type field of notes -/
def notetype : String := "\"NOTE\""

/-- wire value for the (static) type field of lists -/
def listtype : String := "\"LIST\""

/-- wire value for the (static) type field of list items -/
def itemtype : String := "\"LIST_ITEM\""

/-- wire value for the zero time -/
def tszero : String := "\"1970-01-01T00:00:00.000Z\""

/-- wire value for reminder.state, not dismissed -/
def notDismissedVal : String := "\"INITIAL\""

/-- wire value for reminder.state, dismissed -/
def dismissedVal : String := "\"DISMISSED\""

/-- wire value for reminder.period, morning -/
def morningVal : String := "\"MORNING\""

/-- wire value for reminder.period, afternoon -/
def afternoonVal : String := "\"AFTERNOON\""

/-- wire value for reminder.period, evening -/
def eveningVal : String := "\"EVENING\""

/-- wire value for reminder.period, night -/
def nightVal : String := "\"NIGHT\""

/-- wire value for node colors, default -/
def defaultVal : String := "\"DEFAULT\""

/-- wire value for node colors, red -/
def redVal : String := "\"RED\""

/-- wire value for node colors, orange -/
def orangeVal : String := "\"ORANGE\""

/-- wire value for node colors, yellow -/
def yellowVal : String := "\"YELLOW\""

/-- wire value for node colors, green -/
def greenVal : String := "\"GREEN\""

/-- wire value for node colors, teal -/
def tealVal : String := "\"TEAL\""

/-- wire value for node colors, blue -/
def blueVal : String := "\"BLUE\""

/-- wire value for node colors, gray -/
def grayVal : String := "\"GRAY\""

/-- Go type `Period int`: a broad timespan for reminders. Kept as `Int`
because the Go type admits every machine integer, not only the five
named constants. -/
abbrev Period := Int

/-- `SpecificTime Period = iota` (the default, 0). -/
def SpecificTime : Period := 0

/-- Morning, 9am. -/
def Morning : Period := 1

/-- Afternoon, 1pm. -/
def Afternoon : Period := 2

/-- Evening, 5pm. -/
def Evening : Period := 3

/-- Night, 8pm. -/
def Night : Period := 4

/-- Go type `Color int`: the color of a list or node. -/
abbrev Color := Int

/-- `DefaultColor Color = iota` (the default, 0). -/
def DefaultColor : Color := 0

/-- Red. -/
def Red : Color := 1

/-- Orange. -/
def Orange : Color := 2

/-- Yellow. -/
def Yellow : Color := 3

/-- Green. -/
def Green : Color := 4

/-- Teal. -/
def Teal : Color := 5

/-- Blue. -/
def Blue : Color := 6

/-- Gray. -/
def Gray : Color := 7

/-- Go type `Dismissed bool`: serializes to DISMISSED or INITIAL. -/
abbrev Dismissed := Bool

/-- `func (d Dismissed) MarshalJSON() ([]byte, error)`: the error is
always nil in the source, so the embedding returns the bytes directly. -/
def Dismissed.MarshalJSON (d : Dismissed) : String :=
  if d then dismissedVal else notDismissedVal

/-- `func (d *Dismissed) UnmarshalJSON(b []byte) error`, state-passing:
note the source assigns `*d = true` in BOTH the `dismissedVal` branch and
the `notDismissedVal` branch. -/
def Dismissed.UnmarshalJSON (b : String) (d : Dismissed) : Dismissed × Option String :=
  if dismissedVal = b then (true, none)
  else if notDismissedVal = b then (true, none)
  else (d, some ("expected " ++ goQuote dismissedVal ++ " or " ++
    goQuote notDismissedVal ++ " got " ++ goQuote b))

/-- `func (p Period) MarshalJSON() ([]byte, error)`: the default value is
not serializable (Period is always omitempty in the structs). -/
def Period.MarshalJSON (p : Period) : Except String String :=
  if p = Morning then .ok morningVal
  else if p = Afternoon then .ok afternoonVal
  else if p = Evening then .ok eveningVal
  else if p = Night then .ok nightVal
  else .error ("unsupported period value " ++ toString p)

/-- `func (p *Period) UnmarshalJSON(b []byte) error`, state-passing. -/
def Period.UnmarshalJSON (b : String) (p : Period) : Period × Option String :=
  if morningVal = b then (Morning, none)
  else if afternoonVal = b then (Afternoon, none)
  else if eveningVal = b then (Evening, none)
  else if nightVal = b then (Night, none)
  else (p, some ("unexpected Period value " ++ goQuote b))

/-- `func (c Color) MarshalJSON() ([]byte, error)`. -/
def Color.MarshalJSON (c : Color) : Except String String :=
  if c = DefaultColor then .ok defaultVal
  else if c = Red then .ok redVal
  else if c = Orange then .ok orangeVal
  else if c = Yellow then .ok yellowVal
  else if c = Green then .ok greenVal
  else if c = Teal then .ok tealVal
  else if c = Blue then .ok blueVal
  else if c = Gray then .ok grayVal
  else .error ("unsupported color value " ++ toString c)

/-- `func (c *Color) UnmarshalJSON(b []byte) error`, state-passing. -/
def Color.UnmarshalJSON (b : String) (c : Color) : Color × Option String :=
  if defaultVal = b then (DefaultColor, none)
  else if redVal = b then (Red, none)
  else if orangeVal = b then (Orange, none)
  else if yellowVal = b then (Yellow, none)
  else if greenVal = b then (Green, none)
  else if tealVal = b then (Teal, none)
  else if blueVal = b then (Blue, none)
  else if grayVal = b then (Gray, none)
  else (c, some ("unexpected Color value " ++ goQuote b))

/-- The Go layout constant `tsLayout = "2006-01-02T15:04:05.000Z"`. The
trailing Z is a literal character in this layout (it is not followed by a
numeric-zone marker), and `.000` is a fixed three-digit millisecond field. -/
def tsLayout : String := "2006-01-02T15:04:05.000Z"

/-- A Go `time.Time` value, embedded as its wall-clock reading together
with the offset (seconds east of UTC) of its Location. The absolute
instant it denotes is the wall clock read as UTC minus the offset; this
is exactly the data Go stores (absolute seconds plus a Location). -/
structure GoTime where
  year : Int
  month : Int
  day : Int
  hour : Int
  minute : Int
  second : Int
  milli : Int
  offset : Int
deriving DecidableEq, Repr

/-- Days from 1970-01-01 of the civil date y-m-d (standard
era/year-of-era civil calendar arithmetic, as used by Go internally).
Linear in `d`, so out-of-range day numbers act as day offsets, matching
the normalization Go applies in `time.Date`. -/
def daysFromCivil (y m d : Int) : Int :=
  let y2 := y - (if m ≤ 2 then 1 else 0)
  let era := Int.fdiv y2 400
  let yoe := y2 - era * 400
  let mp := Int.emod (m + 9) 12
  let doy := Int.fdiv (153 * mp + 2) 5 + d - 1
  let doe := yoe * 365 + Int.fdiv yoe 4 - Int.fdiv yoe 100 + doy
  era * 146097 + doe - 719468

/-- Absolute instant of a `GoTime` in milliseconds since the Unix epoch:
wall clock read as UTC, minus the location offset. -/
def GoTime.absMillis (t : GoTime) : Int :=
  ((daysFromCivil t.year t.month t.day * 86400 +
    t.hour * 3600 + t.minute * 60 + t.second) - t.offset) * 1000 + t.milli

/-- The zero Go `time.Time` (January 1, year 1, 00:00:00 UTC); this is
what the composite literal `Timestamp\x7b\x7d` denotes. -/
def zeroGoTime : GoTime := ⟨1, 1, 1, 0, 0, 0, 0, 0⟩

/-- Go `time.Time.IsZero`: the absolute instant equals that of the zero
time (a zero-instant value in any location is IsZero). -/
def GoTime.IsZero (t : GoTime) : Bool :=
  t.absMillis = zeroGoTime.absMillis

/-- Decimal rendering of a nonnegative integer, left-padded with zeros
to width `w` (the Go Format behavior for the fixed-width layout fields
used by `tsLayout`; negative values get a leading minus sign). -/
def pad (w : Nat) (n : Int) : String :=
  if n < 0 then
    let s := toString (-n)
    "-" ++ String.mk (List.replicate (w - s.length) '0') ++ s
  else
    let s := toString n
    String.mk (List.replicate (w - s.length) '0') ++ s

/-- Go `tm.Format(tsLayout)`: renders the wall clock of `tm` in its own
location, with a literal Z appended. It does NOT convert to UTC and it
adds no JSON quotes. -/
def goFormatTs (t : GoTime) : String :=
  pad 4 t.year ++ "-" ++ pad 2 t.month ++ "-" ++ pad 2 t.day ++ "T" ++
  pad 2 t.hour ++ ":" ++ pad 2 t.minute ++ ":" ++ pad 2 t.second ++ "." ++
  pad 3 t.milli ++ "Z"

/-- Is `c` an ASCII decimal digit. -/
def isDig (c : Char) : Bool := '0' ≤ c && c ≤ '9'

/-- Reads exactly `n` decimal digits off the front of the character
list, accumulating their value; fails if a non-digit or the end of the
input is hit first. -/
def readDigits : Nat → Int → List Char → Option (Int × List Char)
  | 0, acc, cs => some (acc, cs)
  | n + 1, acc, c :: cs =>
      if isDig c then readDigits n (acc * 10 + ((c.toNat : Int) - 48)) cs
      else none
  | _ + 1, _, [] => none

/-- Consumes one expected literal character. -/
def expectCh (ch : Char) : List Char → Option (List Char)
  | c :: cs => if c = ch then some cs else none
  | [] => none

/-- Is `y` a leap year (Gregorian). -/
def isLeap (y : Int) : Bool := y % 4 = 0 && (y % 100 ≠ 0 || y % 400 = 0)

/-- Number of days in month `m` of year `y`. -/
def daysIn (m y : Int) : Int :=
  if m = 2 then (if isLeap y then 29 else 28)
  else if m = 4 ∨ m = 6 ∨ m = 9 ∨ m = 11 then 30
  else 31

/-- Go `time.Parse(tsLayout, s)`: the layout fixes the exact shape
dddd-dd-ddTdd:dd:dd.dddZ (all fixed-width digit runs and literal
separators, including the literal Z), the whole input must be consumed,
and the field ranges are validated as Go does (month 1-12, day within
the month, hour 0-23, minute and second 0-59). On success the result is
in UTC (offset 0) since the layout carries no zone information. `none`
stands for the non-nil `*time.ParseError` Go returns. -/
def goParseTs (s : String) : Option GoTime := do
  let (y, r) ← readDigits 4 0 s.data
  let r ← expectCh '-' r
  let (mo, r) ← readDigits 2 0 r
  let r ← expectCh '-' r
  let (d, r) ← readDigits 2 0 r
  let r ← expectCh 'T' r
  let (h, r) ← readDigits 2 0 r
  let r ← expectCh ':' r
  let (mi, r) ← readDigits 2 0 r
  let r ← expectCh ':' r
  let (sec, r) ← readDigits 2 0 r
  let r ← expectCh '.' r
  let (ms, r) ← readDigits 3 0 r
  let r ← expectCh 'Z' r
  if r.isEmpty && 1 ≤ mo && mo ≤ 12 && 1 ≤ d && d ≤ daysIn mo y &&
      h ≤ 23 && mi ≤ 59 && sec ≤ 59 then
    some ⟨y, mo, d, h, mi, sec, ms, 0⟩
  else none

/-- `func (t Timestamp) MarshalJSON() ([]byte, error)`: the error is
always nil in the source. If the time is zero it returns the quoted
sentinel `tszero`; otherwise it returns `tm.Format(tsLayout)` verbatim
(no surrounding JSON quotes are added by the source). -/
def Timestamp.MarshalJSON (t : GoTime) : String :=
  if t.IsZero then tszero else goFormatTs t

/-- `func (t *Timestamp) UnmarshalJSON(b []byte) error`, state-passing:
if the raw bytes equal the quoted sentinel the target becomes the zero
time, otherwise the raw bytes (as received, quotes included) are handed
to `time.Parse` with `tsLayout`. -/
def Timestamp.UnmarshalJSON (b : String) (t : GoTime) : GoTime × Option String :=
  if tszero = b then (zeroGoTime, none)
  else match goParseTs b with
    | some tm => (tm, none)
    | none => (t, some ("parsing time " ++ goQuote b ++ " as " ++
        goQuote tsLayout ++ ": cannot parse"))

/-- Go `time.Date(y, mo, d, h, mi, s, 0, loc)` as an absolute instant in
seconds since the Unix epoch, for a location whose offset east of UTC is
`offset` seconds: months outside 1..12 are normalized into the year, and
the remaining fields act as linear offsets, exactly as in Go. -/
def goDate (y mo d h mi s offset : Int) : Int :=
  let y2 := y + Int.fdiv (mo - 1) 12
  let m2 := Int.emod (mo - 1) 12 + 1
  daysFromCivil y2 m2 d * 86400 + h * 3600 + mi * 60 + s - offset

/-- Go struct `Time`: when a Reminder should notify the user. The year,
month, and day are always specified; the time of day is either a generic
Period or a specific Hour/Minute/Second. -/
structure Time where
  Year : Int
  Month : Int
  Day : Int
  Period : Period
  Hour : Int
  Minute : Int
  Second : Int
deriving DecidableEq, Repr

/-- `func (t *Time) Time() time.Time`: the switch on `t.Period` picks
h/m/s (named buckets leave minute and second at their zero value from
the var declaration), then calls `time.Date(..., time.Now().Location())`.
The ambient process location is an input the source reads at call time,
embedded here as the explicit `locOffset` argument (seconds east of
UTC); the result is the absolute instant in Unix seconds. -/
def Time.TimeAt (t : Time) (locOffset : Int) : Int :=
  let hms : Int × Int × Int :=
    if t.Period = SpecificTime then (t.Hour, t.Minute, t.Second)
    else if t.Period = Morning then (9, 0, 0)
    else if t.Period = Afternoon then (13, 0, 0)
    else if t.Period = Evening then (17, 0, 0)
    else if t.Period = Night then (20, 0, 0)
    else (0, 0, 0)
  goDate t.Year t.Month t.Day hms.1 hms.2.1 hms.2.2 locOffset

-- The five literal tag types. Each is a Go empty struct whose
-- MarshalJSON returns a fixed constant with a nil error, and whose
-- UnmarshalJSON succeeds exactly on that constant; there is no state to
-- pass, so the unmarshaler is embedded as input -> Option error.

/-- `func (TSKind) MarshalJSON() ([]byte, error)`. -/
def TSKind.MarshalJSON : String := tskind

/-- `func (*TSKind) UnmarshalJSON(b []byte) error`. -/
def TSKind.UnmarshalJSON (b : String) : Option String :=
  if ¬ (tskind = b) then
    some ("expected " ++ goQuote tskind ++ " got " ++ goQuote b)
  else none

/-- `func (NodeKind) MarshalJSON() ([]byte, error)`. -/
def NodeKind.MarshalJSON : String := nodekind

/-- `func (*NodeKind) UnmarshalJSON(b []byte) error`. -/
def NodeKind.UnmarshalJSON (b : String) : Option String :=
  if ¬ (nodekind = b) then
    some ("expected " ++ goQuote nodekind ++ " got " ++ goQuote b)
  else none

/-- `func (NoteType) MarshalJSON() ([]byte, error)`. -/
def NoteType.MarshalJSON : String := notetype

/-- `func (*NoteType) UnmarshalJSON(b []byte) error`. -/
def NoteType.UnmarshalJSON (b : String) : Option String :=
  if ¬ (notetype = b) then
    some ("expected " ++ goQuote notetype ++ " got " ++ goQuote b)
  else none

/-- `func (ListType) MarshalJSON() ([]byte, error)`. -/
def ListType.MarshalJSON : String := listtype

/-- `func (*ListType) UnmarshalJSON(b []byte) error`. -/
def ListType.UnmarshalJSON (b : String) : Option String :=
  if ¬ (listtype = b) then
    some ("expected " ++ goQuote listtype ++ " got " ++ goQuote b)
  else none

/-- `func (ItemType) MarshalJSON() ([]byte, error)`. -/
def ItemType.MarshalJSON : String := itemtype

/-- `func (*ItemType) UnmarshalJSON(b []byte) error`. -/
def ItemType.UnmarshalJSON (b : String) : Option String :=
  if ¬ (itemtype = b) then
    some ("expected " ++ goQuote itemtype ++ " got " ++ goQuote b)
  else none

/-- Modelled from the spec: the single field of a JSON object emitted by
Go encoding/json for an int struct field tagged omitempty — such a field
is omitted entirely when the value is zero (the repository test
TestPeriodMarshalEmpty pins this behavior down for Period). -/
def optNum (k : String) (n : Int) : List (String × String) :=
  if n = 0 then [] else [(k, toString n)]

/-- Modelled from the spec: entity-level JSON marshaling of the Time
struct is performed by Go encoding/json (standard library, outside this
repository), driven by the struct tags in src/wire/protocol.go:
year/month/day are plain fields, and period, hour, minute, second are
all tagged omitempty, so each is omitted when its value is the zero
value and the period field otherwise delegates to Period.MarshalJSON.
The object is embedded as its ordered field list (key, rendered value). -/
def Time.marshalFields (t : Time) : Except String (List (String × String)) :=
  if t.Period = SpecificTime then
    .ok ([("year", toString t.Year), ("month", toString t.Month),
          ("day", toString t.Day)] ++
      optNum "hour" t.Hour ++ optNum "minute" t.Minute ++
      optNum "second" t.Second)
  else
    match Period.MarshalJSON t.Period with
    | .error e => .error e
    | .ok v =>
      .ok ([("year", toString t.Year), ("month", toString t.Month),
            ("day", toString t.Day), ("period", v)] ++
        optNum "hour" t.Hour ++ optNum "minute" t.Minute ++
        optNum "second" t.Second)

/-- Claim C1: the Dismissed codec evaluated at both wire tokens. Encode
maps false to INITIAL and true to DISMISSED, and unknown tokens fail, as
claimed; but decoding the INITIAL token assigns the dismissed variant
(true) even when the target held false, refuting the claim that the
INITIAL token decodes to the not-dismissed variant. -/
theorem c1_dismissed_decode_initial_gives_dismissed :
    Dismissed.UnmarshalJSON notDismissedVal false = (true, none) ∧
    Dismissed.UnmarshalJSON dismissedVal false = (true, none) ∧
    Dismissed.MarshalJSON false = notDismissedVal ∧
    Dismissed.MarshalJSON true = dismissedVal ∧
    (Dismissed.UnmarshalJSON "\"FOO\"" false).2.isSome = true := by
  decide

/-- Claim C2: the Timestamp decoder evaluated at the failing input. The
26-byte input that is a JSON string matching the fixed pattern (quotes
included) fails to decode and leaves the target unchanged, because the
source hands the quoted raw bytes to time.Parse against the unquoted
layout; the same text without its JSON quotes decodes, and the quoted
sentinel decodes to the zero time as claimed. -/
theorem c2_timestamp_decode_rejects_quoted_pattern :
    (Timestamp.UnmarshalJSON "\"2024-03-05T06:30:00.000Z\"" zeroGoTime).2.isSome = true ∧
    (Timestamp.UnmarshalJSON "\"2024-03-05T06:30:00.000Z\"" zeroGoTime).1 = zeroGoTime ∧
    Timestamp.UnmarshalJSON "2024-03-05T06:30:00.000Z" zeroGoTime =
      (⟨2024, 3, 5, 6, 30, 0, 0, 0⟩, none) ∧
    Timestamp.UnmarshalJSON tszero ⟨2024, 3, 5, 6, 30, 0, 0, 0⟩ =
      (zeroGoTime, none) := by
  decide

/-- Claim C3: the Timestamp encoder evaluated at a non-zero instant. The
output carries no surrounding JSON quotes (while the zero time does get
the quoted sentinel), and a value denoting a different absolute instant
in a non-UTC location (offset 3600) is rendered as the same bytes: the
wall clock of its own location with a literal Z, not UTC. -/
theorem c3_timestamp_encode_emits_unquoted :
    Timestamp.MarshalJSON ⟨2024, 3, 5, 6, 30, 0, 0, 0⟩ = "2024-03-05T06:30:00.000Z" ∧
    Timestamp.MarshalJSON ⟨2024, 3, 5, 6, 30, 0, 0, 3600⟩ = "2024-03-05T06:30:00.000Z" ∧
    Timestamp.MarshalJSON zeroGoTime = tszero := by
  decide

/-- Claim C4: decode after encode, evaluated on every variant the claim
names. All four named Period variants and all eight Color variants
round-trip, and Dismissed true round-trips, but Dismissed false comes
back as true: encode gives the INITIAL token, whose decode branch
assigns true. -/
theorem c4_roundtrip_fails_for_dismissed_false :
    Dismissed.UnmarshalJSON (Dismissed.MarshalJSON false) false = (true, none) ∧
    Dismissed.UnmarshalJSON (Dismissed.MarshalJSON true) true = (true, none) ∧
    (([Morning, Afternoon, Evening, Night] : List Period).all fun p =>
      match Period.MarshalJSON p with
      | .ok v => Period.UnmarshalJSON v SpecificTime == (p, none)
      | .error _ => false) = true ∧
    (([DefaultColor, Red, Orange, Yellow, Green, Teal, Blue, Gray] : List Color).all fun c =>
      match Color.MarshalJSON c with
      | .ok v => Color.UnmarshalJSON v Gray == (c, none)
      | .error _ => false) = true := by
  decide

/-- Claim C5: the literal tag contract for all five tag types. Encode is
the fixed constant and never fails; decode succeeds exactly on the
constant; on any other input it fails with the mismatch error carrying
both the expected constant and the observed bytes. -/
theorem c5_literal_tag_contract (b : String) :
    (TSKind.MarshalJSON = tskind ∧
      (TSKind.UnmarshalJSON b = none ↔ b = tskind) ∧
      (b ≠ tskind → TSKind.UnmarshalJSON b =
        some ("expected " ++ goQuote tskind ++ " got " ++ goQuote b))) ∧
    (NodeKind.MarshalJSON = nodekind ∧
      (NodeKind.UnmarshalJSON b = none ↔ b = nodekind) ∧
      (b ≠ nodekind → NodeKind.UnmarshalJSON b =
        some ("expected " ++ goQuote nodekind ++ " got " ++ goQuote b))) ∧
    (NoteType.MarshalJSON = notetype ∧
      (NoteType.UnmarshalJSON b = none ↔ b = notetype) ∧
      (b ≠ notetype → NoteType.UnmarshalJSON b =
        some ("expected " ++ goQuote notetype ++ " got " ++ goQuote b))) ∧
    (ListType.MarshalJSON = listtype ∧
      (ListType.UnmarshalJSON b = none ↔ b = listtype) ∧
      (b ≠ listtype → ListType.UnmarshalJSON b =
        some ("expected " ++ goQuote listtype ++ " got " ++ goQuote b))) ∧
    (ItemType.MarshalJSON = itemtype ∧
      (ItemType.UnmarshalJSON b = none ↔ b = itemtype) ∧
      (b ≠ itemtype → ItemType.UnmarshalJSON b =
        some ("expected " ++ goQuote itemtype ++ " got " ++ goQuote b))) := by
  refine ⟨⟨rfl, ?_, ?_⟩, ⟨rfl, ?_, ?_⟩, ⟨rfl, ?_, ?_⟩, ⟨rfl, ?_, ?_⟩, ⟨rfl, ?_, ?_⟩⟩
  · rcases eq_or_ne b tskind with h | h
    · simp [TSKind.UnmarshalJSON, h]
    · simp [TSKind.UnmarshalJSON, h, Ne.symm h]
  · intro h; simp [TSKind.UnmarshalJSON, Ne.symm h]
  · rcases eq_or_ne b nodekind with h | h
    · simp [NodeKind.UnmarshalJSON, h]
    · simp [NodeKind.UnmarshalJSON, h, Ne.symm h]
  · intro h; simp [NodeKind.UnmarshalJSON, Ne.symm h]
  · rcases eq_or_ne b notetype with h | h
    · simp [NoteType.UnmarshalJSON, h]
    · simp [NoteType.UnmarshalJSON, h, Ne.symm h]
  · intro h; simp [NoteType.UnmarshalJSON, Ne.symm h]
  · rcases eq_or_ne b listtype with h | h
    · simp [ListType.UnmarshalJSON, h]
    · simp [ListType.UnmarshalJSON, h, Ne.symm h]
  · intro h; simp [ListType.UnmarshalJSON, Ne.symm h]
  · rcases eq_or_ne b itemtype with h | h
    · simp [ItemType.UnmarshalJSON, h]
    · simp [ItemType.UnmarshalJSON, h, Ne.symm h]
  · intro h; simp [ItemType.UnmarshalJSON, Ne.symm h]

/-- Claim C5, witness: each tag decoder applied to the constant of a
different tag type fails with the error reporting both byte strings. -/
theorem c5_literal_tag_contract_witness :
    TSKind.UnmarshalJSON nodekind =
      some ("expected " ++ goQuote tskind ++ " got " ++ goQuote nodekind) ∧
    NodeKind.UnmarshalJSON tskind =
      some ("expected " ++ goQuote nodekind ++ " got " ++ goQuote tskind) ∧
    NoteType.UnmarshalJSON listtype =
      some ("expected " ++ goQuote notetype ++ " got " ++ goQuote listtype) ∧
    ListType.UnmarshalJSON notetype =
      some ("expected " ++ goQuote listtype ++ " got " ++ goQuote notetype) ∧
    ItemType.UnmarshalJSON notetype =
      some ("expected " ++ goQuote itemtype ++ " got " ++ goQuote notetype) :=
  ⟨(c5_literal_tag_contract nodekind).1.2.2 (by decide),
   (c5_literal_tag_contract tskind).2.1.2.2 (by decide),
   (c5_literal_tag_contract listtype).2.2.1.2.2 (by decide),
   (c5_literal_tag_contract notetype).2.2.2.1.2.2 (by decide),
   (c5_literal_tag_contract notetype).2.2.2.2.2.2 (by decide)⟩

/-- Claim C6: encoding the default Period variant is an error, and the
entity-level marshal of a Time whose Period is the default succeeds
while omitting the period field entirely. -/
theorem c6_default_period_not_encodable_and_omitted (t : Time)
    (h : t.Period = SpecificTime) :
    Period.MarshalJSON SpecificTime = .error "unsupported period value 0" ∧
    ∃ fs, Time.marshalFields t = .ok fs ∧ "period" ∉ fs.map Prod.fst := by
  refine ⟨rfl, ?_⟩
  simp only [Time.marshalFields, if_pos h]
  refine ⟨_, rfl, ?_⟩
  rcases eq_or_ne t.Hour 0 with h1 | h1 <;>
    rcases eq_or_ne t.Minute 0 with h2 | h2 <;>
      rcases eq_or_ne t.Second 0 with h3 | h3 <;>
        simp [optNum, h1, h2, h3]

/-- Claim C6, witness: the concrete Time 2024-03-05 at 06:30 with the
default Period marshals with no period field. -/
theorem c6_default_period_witness :
    Period.MarshalJSON SpecificTime = .error "unsupported period value 0" ∧
    ∃ fs, Time.marshalFields ⟨2024, 3, 5, SpecificTime, 6, 30, 0⟩ = .ok fs ∧
      "period" ∉ fs.map Prod.fst :=
  c6_default_period_not_encodable_and_omitted ⟨2024, 3, 5, SpecificTime, 6, 30, 0⟩ rfl

/-- Claim C7: for any Time and any ambient location offset, a named
bucket Period derives the instant of the stored year/month/day at the
canonical hour (9, 13, 17, 20) with minute and second zero, ignoring the
Hour/Minute/Second fields, while the default Period derives the instant
at the explicit Hour/Minute/Second. -/
theorem c7_reminder_time_derivation (t : Time) (loc : Int) :
    (t.Period = Morning → t.TimeAt loc = goDate t.Year t.Month t.Day 9 0 0 loc) ∧
    (t.Period = Afternoon → t.TimeAt loc = goDate t.Year t.Month t.Day 13 0 0 loc) ∧
    (t.Period = Evening → t.TimeAt loc = goDate t.Year t.Month t.Day 17 0 0 loc) ∧
    (t.Period = Night → t.TimeAt loc = goDate t.Year t.Month t.Day 20 0 0 loc) ∧
    (t.Period = SpecificTime →
      t.TimeAt loc = goDate t.Year t.Month t.Day t.Hour t.Minute t.Second loc) := by
  refine ⟨?_, ?_, ?_, ?_, ?_⟩ <;> intro h <;>
    simp [Time.TimeAt, h, SpecificTime, Morning, Afternoon, Evening, Night]

/-- Claim C7, witness: with the UTC location, Evening on 2024-03-05
derives 2024-03-05T17:00:00Z (Unix 1709658000), the explicit Hour and
Minute 6:30 being ignored; the default Period with the same fields
derives 2024-03-05T06:30:00Z (Unix 1709620200). -/
theorem c7_reminder_time_derivation_witness :
    Time.TimeAt ⟨2024, 3, 5, Evening, 6, 30, 0⟩ 0 = 1709658000 ∧
    Time.TimeAt ⟨2024, 3, 5, SpecificTime, 6, 30, 0⟩ 0 = 1709620200 :=
  ⟨((c7_reminder_time_derivation ⟨2024, 3, 5, Evening, 6, 30, 0⟩ 0).2.2.1 rfl).trans
      (by decide),
   ((c7_reminder_time_derivation ⟨2024, 3, 5, SpecificTime, 6, 30, 0⟩ 0).2.2.2.2 rfl).trans
      (by decide)⟩

/-- Claim C8: every input outside the closed token set fails with the
unknown-token error and leaves the target unchanged, while each of the
four named period tokens and eight color tokens decodes to its
variant. -/
theorem c8_unknown_token_rejection (b : String) (p : Period) (c : Color) :
    (b ∉ ([morningVal, afternoonVal, eveningVal, nightVal] : List String) →
      Period.UnmarshalJSON b p = (p, some ("unexpected Period value " ++ goQuote b))) ∧
    (b ∉ ([defaultVal, redVal, orangeVal, yellowVal, greenVal, tealVal,
        blueVal, grayVal] : List String) →
      Color.UnmarshalJSON b c = (c, some ("unexpected Color value " ++ goQuote b))) ∧
    Period.UnmarshalJSON morningVal p = (Morning, none) ∧
    Period.UnmarshalJSON afternoonVal p = (Afternoon, none) ∧
    Period.UnmarshalJSON eveningVal p = (Evening, none) ∧
    Period.UnmarshalJSON nightVal p = (Night, none) ∧
    Color.UnmarshalJSON defaultVal c = (DefaultColor, none) ∧
    Color.UnmarshalJSON redVal c = (Red, none) ∧
    Color.UnmarshalJSON orangeVal c = (Orange, none) ∧
    Color.UnmarshalJSON yellowVal c = (Yellow, none) ∧
    Color.UnmarshalJSON greenVal c = (Green, none) ∧
    Color.UnmarshalJSON tealVal c = (Teal, none) ∧
    Color.UnmarshalJSON blueVal c = (Blue, none) ∧
    Color.UnmarshalJSON grayVal c = (Gray, none) := by
  refine ⟨?_, ?_, rfl, rfl, rfl, rfl, rfl, rfl, rfl, rfl, rfl, rfl, rfl, rfl⟩
  · intro h
    simp only [List.mem_cons, List.not_mem_nil, or_false, not_or] at h
    obtain ⟨h1, h2, h3, h4⟩ := h
    simp [Period.UnmarshalJSON, Ne.symm h1, Ne.symm h2, Ne.symm h3, Ne.symm h4]
  · intro h
    simp only [List.mem_cons, List.not_mem_nil, or_false, not_or] at h
    obtain ⟨h1, h2, h3, h4, h5, h6, h7, h8⟩ := h
    simp [Color.UnmarshalJSON, Ne.symm h1, Ne.symm h2, Ne.symm h3, Ne.symm h4,
      Ne.symm h5, Ne.symm h6, Ne.symm h7, Ne.symm h8]

/-- Claim C8, witness: the period token MIDNIGHT and the color token
PURPLE each fail with the unknown-token error. -/
theorem c8_unknown_token_rejection_witness :
    Period.UnmarshalJSON "\"MIDNIGHT\"" SpecificTime =
      (SpecificTime, some ("unexpected Period value " ++ goQuote "\"MIDNIGHT\"")) ∧
    Color.UnmarshalJSON "\"PURPLE\"" DefaultColor =
      (DefaultColor, some ("unexpected Color value " ++ goQuote "\"PURPLE\"")) :=
  ⟨(c8_unknown_token_rejection "\"MIDNIGHT\"" SpecificTime DefaultColor).1 (by decide),
   (c8_unknown_token_rejection "\"PURPLE\"" SpecificTime DefaultColor).2.1 (by decide)⟩

/-- Claim C9: whenever one of the four decoders returns a non-nil error,
the pointed-to value is unchanged. -/
theorem c9_decode_atomicity (b : String) (p : Period) (c : Color)
    (tm : GoTime) (d : Dismissed) :
    ((Period.UnmarshalJSON b p).2.isSome = true → (Period.UnmarshalJSON b p).1 = p) ∧
    ((Color.UnmarshalJSON b c).2.isSome = true → (Color.UnmarshalJSON b c).1 = c) ∧
    ((Timestamp.UnmarshalJSON b tm).2.isSome = true →
      (Timestamp.UnmarshalJSON b tm).1 = tm) ∧
    ((Dismissed.UnmarshalJSON b d).2.isSome = true →
      (Dismissed.UnmarshalJSON b d).1 = d) := by
  refine ⟨?_, ?_, ?_, ?_⟩ <;> intro h
  · unfold Period.UnmarshalJSON at h ⊢
    repeat' split at h
    all_goals simp_all
  · unfold Color.UnmarshalJSON at h ⊢
    repeat' split at h
    all_goals simp_all
  · unfold Timestamp.UnmarshalJSON at h ⊢
    split at h <;> simp_all
    split at h <;> simp_all
  · unfold Dismissed.UnmarshalJSON at h ⊢
    split at h <;> simp_all
    split at h <;> simp_all

/-- Claim C9, witness: the input `bad` is outside every token set and is
not a timestamp, and each decoder leaves its concrete target intact. -/
theorem c9_decode_atomicity_witness :
    (Period.UnmarshalJSON "bad" Morning).1 = Morning ∧
    (Color.UnmarshalJSON "bad" Red).1 = Red ∧
    (Timestamp.UnmarshalJSON "bad" ⟨2024, 3, 5, 6, 30, 0, 0, 0⟩).1 =
      ⟨2024, 3, 5, 6, 30, 0, 0, 0⟩ ∧
    (Dismissed.UnmarshalJSON "bad" false).1 = false :=
  ⟨(c9_decode_atomicity "bad" Morning Red ⟨2024, 3, 5, 6, 30, 0, 0, 0⟩ false).1
      (by decide),
   (c9_decode_atomicity "bad" Morning Red ⟨2024, 3, 5, 6, 30, 0, 0, 0⟩ false).2.1
      (by decide),
   (c9_decode_atomicity "bad" Morning Red ⟨2024, 3, 5, 6, 30, 0, 0, 0⟩ false).2.2.1
      (by decide),
   (c9_decode_atomicity "bad" Morning Red ⟨2024, 3, 5, 6, 30, 0, 0, 0⟩ false).2.2.2
      (by decide)⟩

/-- Claim C10: the derived instant depends on the ambient location the
source reads via time.Now().Location() at call time: for one receiver,
two distinct location offsets give two distinct absolute instants, while
the wall-clock reading (instant plus offset) is determined by the
receiver alone. -/
theorem c10_location_dependence (t : Time) (loc1 loc2 : Int) (h : loc1 ≠ loc2) :
    t.TimeAt loc1 ≠ t.TimeAt loc2 ∧
    t.TimeAt loc1 + loc1 = t.TimeAt loc2 + loc2 := by
  simp only [Time.TimeAt, goDate]
  constructor
  · intro he
    apply h
    omega
  · omega

/-- Claim C10, witness: the same Time value evaluated in UTC and in a
zone one hour east yields different instants with the same wall
clock. -/
theorem c10_location_dependence_witness :
    Time.TimeAt ⟨2024, 3, 5, Evening, 6, 30, 0⟩ 0 ≠
      Time.TimeAt ⟨2024, 3, 5, Evening, 6, 30, 0⟩ 3600 ∧
    Time.TimeAt ⟨2024, 3, 5, Evening, 6, 30, 0⟩ 0 + 0 =
      Time.TimeAt ⟨2024, 3, 5, Evening, 6, 30, 0⟩ 3600 + 3600 :=
  c10_location_dependence ⟨2024, 3, 5, Evening, 6, 30, 0⟩ 0 3600 (by decide)

end Keep
